import Mathlib

/-!
Shallow embedding of the concrete-designer calculation engine
(src/rebar.py, src/concrete_analysis.py, src/concrete_design.py,
src/conc_analysis_classes.py) over the rationals, together with proofs of
the specified properties.  Python float arithmetic is modelled by exact
rational arithmetic; a Python division that can raise ZeroDivisionError is
modelled by an Except-valued division, and the ValueError raised on a
catalog miss is modelled by a dedicated error constructor carrying the
label from the message.
-/

/-- Errors the Python code can raise: ZeroDivisionError from a float
division by zero, and the two ValueError cases raised on catalog misses
(message "Bar size ... not found in the properties file." respectively
"Grade ... not found in the properties file."). -/
inductive PyError where
  | zeroDivision
  | unknownBarSize (label : String)
  | unknownGrade (label : String)
deriving DecidableEq

/-- Python float division: raises ZeroDivisionError when the divisor is
zero, otherwise returns the quotient. -/
def pydiv (x y : ℚ) : Except PyError ℚ :=
  if y = 0 then .error .zeroDivision else .ok (x / y)

instance : DecidableEq (Except PyError ℚ) := fun a b =>
  match a, b with
  | .error e, .error f => decidable_of_iff (e = f) (by simp)
  | .ok x, .ok y => decidable_of_iff (x = y) (by simp)
  | .error _, .ok _ => isFalse (by simp)
  | .ok _, .error _ => isFalse (by simp)

/-- One row of the bar-properties table data/props.csv, as read by
RebarProperties / RebarLayout (src/rebar.py). -/
structure BarRow where
  bar_size : String
  bar_diameter : ℚ
  bar_area : ℚ
  bar_weight : ℚ
  bar_perimeter : ℚ
deriving DecidableEq

/-- One row of the grade table data/grade.csv, as read by RebarGrade
(src/rebar.py). -/
structure GradeRow where
  grade : String
  yield : ℚ
  gamma_3 : ℚ
deriving DecidableEq

namespace RebarLayout

/-- RebarLayout.get_bar_diameter (src/rebar.py lines 63-70): filter the
table on the bar_size column, raise ValueError when the filtered table is
empty, otherwise return the bar_diameter of the first matching row. -/
def get_bar_diameter (tbl : List BarRow) (bar_size : String) : Except PyError ℚ :=
  match tbl.find? (fun r => r.bar_size == bar_size) with
  | none => .error (.unknownBarSize bar_size)
  | some r => .ok r.bar_diameter

/-- RebarLayout.calc_position (src/rebar.py lines 81-94): if a transverse
bar label is given (Python truthiness: not None and not the empty string)
its diameter is looked up, else the transverse diameter is 0; the returned
position is cover + trans_diameter + bar_diameter / 2. -/
def calc_position (tbl : List BarRow) (bar_diameter cover : ℚ)
    (trans_bar : Option String) : Except PyError ℚ :=
  match trans_bar with
  | some tb =>
      if tb = "" then .ok (cover + 0 + bar_diameter / 2)
      else (get_bar_diameter tbl tb).map
        (fun trans_diameter => cover + trans_diameter + bar_diameter / 2)
  | none => .ok (cover + 0 + bar_diameter / 2)

/-- RebarLayout.calc_As_per_ft (src/rebar.py lines 96-104):
bar_area / (spacing / 12). -/
def calc_As_per_ft (bar_area spacing : ℚ) : Except PyError ℚ :=
  pydiv bar_area (spacing / 12)

/-- RebarLayout.calc_As (src/rebar.py lines 116-129): number of bars is
width / spacing when offset = 0, else (width - 2 * offset) / spacing + 1;
the result is num_bars * bar_area. -/
def calc_As (bar_area width spacing offset : ℚ) : Except PyError ℚ :=
  (if offset = 0 then pydiv width spacing
   else (pydiv (width - 2 * offset) spacing).map (· + 1)).map (· * bar_area)

end RebarLayout

namespace RebarGrade

/-- RebarGrade constructor (src/rebar.py lines 36-44): filter the grade
table on the grade column, raise ValueError when empty, otherwise keep the
first matching row as the properties record. -/
def init (tbl : List GradeRow) (bar_grade : String) : Except PyError GradeRow :=
  match tbl.find? (fun r => r.grade == bar_grade) with
  | none => .error (.unknownGrade bar_grade)
  | some r => .ok r

end RebarGrade

/-- A concrete bar table used to instantiate the catalog theorems:
number 4 and number 8 bars with their standard diameter, area, weight and
perimeter. -/
def sampleBarTable : List BarRow :=
  [⟨"#4", 1/2, 1/5, 167/250, 1571/1000⟩, ⟨"#8", 1, 79/100, 267/100, 1571/500⟩]

/-- A concrete grade table used to instantiate the catalog theorems. -/
def sampleGradeTable : List GradeRow :=
  [⟨"A615-60", 60, 67/100⟩, ⟨"A615-75", 75, 3/4⟩]

/-- C5: a bar-size lookup fails with the bar-size ValueError exactly when
no row of the table matches the label, and returns the first matching
row's diameter otherwise; likewise the grade lookup fails with the grade
ValueError exactly when no row matches, and returns the matching row's
properties otherwise. -/
theorem lookup_fails_iff_no_matching_row (tbl : List BarRow) (gtbl : List GradeRow)
    (bs gr : String) :
    (tbl.find? (fun r => r.bar_size == bs) = none →
      RebarLayout.get_bar_diameter tbl bs = .error (.unknownBarSize bs)) ∧
    (∀ row, tbl.find? (fun r => r.bar_size == bs) = some row →
      RebarLayout.get_bar_diameter tbl bs = .ok row.bar_diameter) ∧
    (gtbl.find? (fun r => r.grade == gr) = none →
      RebarGrade.init gtbl gr = .error (.unknownGrade gr)) ∧
    (∀ row, gtbl.find? (fun r => r.grade == gr) = some row →
      RebarGrade.init gtbl gr = .ok row) := by
  refine ⟨?_, ?_, ?_, ?_⟩
  · intro h
    simp [RebarLayout.get_bar_diameter, h]
  · intro row h
    simp [RebarLayout.get_bar_diameter, h]
  · intro h
    simp [RebarGrade.init, h]
  · intro row h
    simp [RebarGrade.init, h]

/-- Witness for C5 on the concrete sample tables: a missing bar size and a
missing grade fail with the respective errors, while present labels return
the matching row's properties. -/
theorem lookup_fails_iff_no_matching_row_witness :
    RebarLayout.get_bar_diameter sampleBarTable "#9" = .error (.unknownBarSize "#9") ∧
    RebarLayout.get_bar_diameter sampleBarTable "#4" = .ok (1/2) ∧
    RebarGrade.init sampleGradeTable "A706-80" = .error (.unknownGrade "A706-80") ∧
    RebarGrade.init sampleGradeTable "A615-75" = .ok ⟨"A615-75", 75, 3/4⟩ :=
  ⟨(lookup_fails_iff_no_matching_row sampleBarTable sampleGradeTable "#9" "x").1 (by rfl),
   (lookup_fails_iff_no_matching_row sampleBarTable sampleGradeTable "#4" "x").2.1
     ⟨"#4", 1/2, 1/5, 167/250, 1571/1000⟩ (by rfl),
   (lookup_fails_iff_no_matching_row sampleBarTable sampleGradeTable "x" "A706-80").2.2.1 (by rfl),
   (lookup_fails_iff_no_matching_row sampleBarTable sampleGradeTable "x" "A615-75").2.2.2
     ⟨"A615-75", 75, 3/4⟩ (by rfl)⟩

/-- C2 counterexample: with main bar diameter 1, cover 3/2 and a
transverse bar of diameter 1/2, calc_position returns 5/2 = cover + the
full transverse diameter + half the main diameter, which differs from the
claimed cover + half transverse diameter + half main diameter = 9/4. -/
theorem calc_position_claim_counterexample :
    RebarLayout.calc_position sampleBarTable 1 (3/2) (some "#4") = .ok (5/2) ∧
    (5/2 : ℚ) ≠ 3/2 + (1/2) / 2 + 1 / 2 := by
  constructor
  · simp [RebarLayout.calc_position, RebarLayout.get_bar_diameter, sampleBarTable,
      List.find?, Except.map]
    norm_num
  · norm_num

/-- C2 (amended): for every cover, main bar diameter and transverse bar
whose diameter lookup succeeds with value td, calc_position returns
cover + td + bar_diameter / 2 (the full transverse diameter is added, not
half), and with no transverse bar the transverse diameter defaults to 0. -/
theorem calc_position_spec (tbl : List BarRow) (bar_diameter cover : ℚ)
    (tb : String) (td : ℚ) (hne : tb ≠ "")
    (hlook : RebarLayout.get_bar_diameter tbl tb = .ok td) :
    RebarLayout.calc_position tbl bar_diameter cover (some tb) =
      .ok (cover + td + bar_diameter / 2) ∧
    RebarLayout.calc_position tbl bar_diameter cover none =
      .ok (cover + 0 + bar_diameter / 2) := by
  constructor
  · simp [RebarLayout.calc_position, hne, hlook, Except.map]
  · rfl

/-- Witness for C2 (amended) on the sample table with bar diameter 1,
cover 3/2 and transverse bar of diameter 1/2. -/
theorem calc_position_spec_witness :
    RebarLayout.calc_position sampleBarTable 1 (3/2) (some "#4") = .ok (3/2 + 1/2 + 1 / 2) ∧
    RebarLayout.calc_position sampleBarTable 1 (3/2) none = .ok (3/2 + 0 + 1 / 2) :=
  calc_position_spec sampleBarTable 1 (3/2) "#4" (1/2) (by decide) (by rfl)

/-- C8: with spacing 0 both steel-area computations raise
ZeroDivisionError (bar_area / (0 / 12) and width / 0), for every bar area,
width and offset, rather than returning a value. -/
theorem steel_area_zero_spacing_fails (bar_area width offset : ℚ) :
    RebarLayout.calc_As_per_ft bar_area 0 = .error .zeroDivision ∧
    RebarLayout.calc_As bar_area width 0 offset = .error .zeroDivision := by
  constructor
  · simp [RebarLayout.calc_As_per_ft, pydiv]
  · by_cases h : offset = 0 <;> simp [RebarLayout.calc_As, pydiv, h, Except.map]

/-- C9: for a fixed positive bar area, A_s per foot is strictly decreasing
in spacing: for 0 < s1 < s2 both computations succeed and the value at s2
is strictly below the value at s1. -/
theorem As_per_ft_strict_anti (bar_area s1 s2 : ℚ)
    (hba : 0 < bar_area) (h1 : 0 < s1) (h12 : s1 < s2) :
    RebarLayout.calc_As_per_ft bar_area s1 = .ok (bar_area / (s1 / 12)) ∧
    RebarLayout.calc_As_per_ft bar_area s2 = .ok (bar_area / (s2 / 12)) ∧
    bar_area / (s2 / 12) < bar_area / (s1 / 12) := by
  have h2 : 0 < s2 := h1.trans h12
  refine ⟨?_, ?_, ?_⟩
  · simp [RebarLayout.calc_As_per_ft, pydiv, (by positivity : s1 / 12 ≠ 0)]
  · simp [RebarLayout.calc_As_per_ft, pydiv, (by positivity : s2 / 12 ≠ 0)]
  · exact div_lt_div_of_pos_left hba (by positivity) (by linarith)

/-- Witness for C9 at bar area 1, spacings 1 and 2. -/
theorem As_per_ft_strict_anti_witness :
    RebarLayout.calc_As_per_ft 1 1 = .ok (1 / (1 / 12)) ∧
    RebarLayout.calc_As_per_ft 1 2 = .ok (1 / (2 / 12)) ∧
    (1 : ℚ) / (2 / 12) < 1 / (1 / 12) :=
  As_per_ft_strict_anti 1 1 2 (by norm_num) (by norm_num) (by norm_num)

/-- calc_stress (src/concrete_analysis.py lines 4-13): bending stress
M * 12 * y / I. -/
def calc_stress (M y I : ℚ) : ℚ := M * 12 * y / I

/-- calc_beta1 (src/concrete_analysis.py lines 55-66): 0.85 for
f_c <= 4 ksi, else max(0.85 - (f_c - 4) * 0.05, 0.65). -/
def calc_beta1 (f_c : ℚ) : ℚ :=
  if f_c ≤ 4 then 0.85 else max (0.85 - (f_c - 4) * 0.05) 0.65

/-- calc_lambda (src/concrete_analysis.py lines 68-76): density
modification factor min(max(7.5 * conc_density / 1000, 0.75), 1). -/
def calc_lambda (conc_density : ℚ) : ℚ :=
  min (max (7.5 * conc_density / 1000) 0.75) 1

/-- calc_compression_block (src/concrete_analysis.py lines 102-112):
a = (A_s * f_y) / (0.85 * f_c * width), a Python float division. -/
def calc_compression_block (width A_s f_c f_y : ℚ) : Except PyError ℚ :=
  pydiv (A_s * f_y) (0.85 * f_c * width)

/-- Output record of a stress evaluation: the cracked flag and the
concrete and steel stresses set by set_stresses. -/
structure StressOut where
  cracked : Bool
  f_conc : ℚ
  f_steel : ℚ
deriving DecidableEq

namespace BeamStress

/-- BeamStress.calc_rho (src/conc_analysis_classes.py lines 222-226):
reinforcement ratio A_s / (b * d). -/
def calc_rho (A_s b d : ℚ) : ℚ := A_s / (b * d)

/-- BeamStress.calc_k (src/conc_analysis_classes.py lines 228-233):
k = -rho * n + ((rho * n) ^ 2 + 2 * rho * n) ** 0.5, with the square root
abstracted as the function sq. -/
def calc_k (sq : ℚ → ℚ) (A_s b d n : ℚ) : ℚ :=
  -(calc_rho A_s b d) * n + sq ((calc_rho A_s b d * n) ^ 2 + 2 * calc_rho A_s b d * n)

/-- BeamStress.calc_j (src/conc_analysis_classes.py lines 235-240):
j = 1 - k / 3. -/
def calc_j (sq : ℚ → ℚ) (A_s b d n : ℚ) : ℚ := 1 - calc_k sq A_s b d n / 3

/-- Cracked branch of BeamStress.set_stresses (src/conc_analysis_classes.py
lines 246-250): the transformed-section stresses
(f_conc, f_steel) = (2 M 12 / (j k b d^2), M 12 / (A_s j d)). -/
def cracked_stresses (sq : ℚ → ℚ) (A_s b d n M : ℚ) : ℚ × ℚ :=
  (2 * M * 12 / (calc_j sq A_s b d n * calc_k sq A_s b d n * b * d ^ 2),
   M * 12 / (A_s * calc_j sq A_s b d n * d))

/-- Uncracked branch of BeamStress.set_stresses (src/conc_analysis_classes.py
lines 251-254): gross-section stresses via calc_stress. -/
def uncracked_stresses (n d h I_g M : ℚ) : ℚ × ℚ :=
  (calc_stress M (h / 2) I_g, n * calc_stress M (d - h / 2) I_g)

end BeamStress

namespace ConcreteAnalyzer

/-- ConcreteAnalyzer.set_stresses (src/concrete_analysis.py lines 243-261):
sets cracked = (M >= M_cr) and branches on it, computing the cracked
transformed-section stresses or the uncracked gross-section stresses.  The
square root in the cracked branch is abstracted as sq. -/
def set_stresses (sq : ℚ → ℚ) (M_cr A_s b n d_s h I_g M : ℚ) : StressOut :=
  let cracked : Bool := decide (M ≥ M_cr)
  if cracked then
    let rho := A_s / (b * d_s)
    let k := -rho * n + sq ((rho * n) ^ 2 + 2 * rho * n)
    let j := 1 - k / 3
    ⟨cracked, 2 * M * 12 / (j * k * b * d_s ^ 2), M * 12 / (A_s * j * d_s)⟩
  else
    ⟨cracked, calc_stress M (h / 2) I_g, n * calc_stress M (d_s - h / 2) I_g⟩

/-- ConcreteAnalyzer.set_epsilon_t (src/concrete_analysis.py lines
208-215): epsilon_t = epsilon_c * (d_s - c) / c with epsilon_c = 0.003, a
Python float division by c. -/
def set_epsilon_t (d_s c : ℚ) : Except PyError ℚ :=
  pydiv (0.003 * (d_s - c)) c

/-- The strain computation as reached from the constructor
(src/concrete_analysis.py lines 192-198 then set_epsilon_t): a is the
compression block, c = a / beta_1, then epsilon_t = 0.003 (d_s - c) / c. -/
def epsilon_t_of_section (width A_s f_c f_y d_s : ℚ) : Except PyError ℚ :=
  match calc_compression_block width A_s f_c f_y with
  | .error e => .error e
  | .ok a =>
    match pydiv a (calc_beta1 f_c) with
    | .error e => .error e
    | .ok c => set_epsilon_t d_s c

/-- ConcreteAnalyzer.set_Vc (src/concrete_analysis.py lines 217-229):
V_c = 0.0316 * beta * lambda * f_c ** 0.5 * b * d_v with beta = 2 and the
square root of f_c abstracted as sq. -/
def set_Vc (sq : ℚ → ℚ) (conc_density f_c b d_v : ℚ) : ℚ :=
  0.0316 * 2 * calc_lambda conc_density * sq f_c * b * d_v

/-- ConcreteAnalyzer.set_shear_capacity (src/concrete_analysis.py lines
231-241): V_n = min(V_c + V_s, 0.25 * f_c * b * d_v). -/
def set_shear_capacity (sq : ℚ → ℚ) (conc_density f_c b d_v V_s : ℚ) : ℚ :=
  min (set_Vc sq conc_density f_c b d_v + V_s) (0.25 * f_c * b * d_v)

end ConcreteAnalyzer

/-- C1: for every square-root model and every section state, set_stresses
sets cracked = true exactly when M_cr <= M (non-strict, so the boundary is
cracked), and the result is exactly the cracked transformed-section
stresses when M_cr <= M and exactly the uncracked gross-section stresses
otherwise: the two branches are mutually exclusive and cover the domain. -/
theorem set_stresses_cracked_iff (sq : ℚ → ℚ) (M_cr A_s b n d_s h I_g M : ℚ) :
    (ConcreteAnalyzer.set_stresses sq M_cr A_s b n d_s h I_g M).cracked
      = decide (M_cr ≤ M) ∧
    ConcreteAnalyzer.set_stresses sq M_cr A_s b n d_s h I_g M =
      (if M_cr ≤ M then
        ⟨true, (BeamStress.cracked_stresses sq A_s b d_s n M).1,
               (BeamStress.cracked_stresses sq A_s b d_s n M).2⟩
       else
        ⟨false, (BeamStress.uncracked_stresses n d_s h I_g M).1,
                (BeamStress.uncracked_stresses n d_s h I_g M).2⟩) := by
  by_cases hM : M_cr ≤ M
  · refine ⟨?_, ?_⟩ <;>
      simp [ConcreteAnalyzer.set_stresses, BeamStress.cracked_stresses,
        BeamStress.calc_j, BeamStress.calc_k, BeamStress.calc_rho,
        ge_iff_le, hM]
  · refine ⟨?_, ?_⟩ <;>
      simp [ConcreteAnalyzer.set_stresses, BeamStress.uncracked_stresses,
        ge_iff_le, hM]

/-- C3: with zero reinforcement area the strain computation is reached
with c = 0 and performs an unguarded float division by zero, so the
evaluation raises ZeroDivisionError (not an input-validation error): shown
at width 12, A_s = 0, f_c = 4, f_y = 60, d_s = 25/4. -/
theorem epsilon_t_zero_reinf_divides_by_zero :
    ConcreteAnalyzer.epsilon_t_of_section 12 0 4 60 (25/4) = .error .zeroDivision := by
  have h1 : calc_compression_block 12 0 4 60 = .ok 0 := by
    rw [calc_compression_block, pydiv, if_neg (by norm_num)]
    norm_num
  have hb : calc_beta1 4 = 0.85 := by
    rw [calc_beta1, if_pos (by norm_num)]
  have h2 : pydiv 0 (calc_beta1 4) = .ok 0 := by
    rw [pydiv, hb, if_neg (by norm_num)]
    norm_num
  have h3 : ConcreteAnalyzer.set_epsilon_t (25/4) 0 = .error .zeroDivision := by
    rw [ConcreteAnalyzer.set_epsilon_t, pydiv, if_pos rfl]
  simp only [ConcreteAnalyzer.epsilon_t_of_section, h1, h2, h3]

/-- C6: for every square-root model, every section with b > 0, f_c > 0,
d_v > 0 and every shear reinforcement contribution V_s >= 0, the nominal
shear capacity is at most the crushing cap 0.25 * f_c * b * d_v. -/
theorem shear_capacity_le_cap (sq : ℚ → ℚ) (conc_density f_c b d_v V_s : ℚ)
    (_hb : 0 < b) (_hf : 0 < f_c) (_hd : 0 < d_v) (_hV : 0 ≤ V_s) :
    ConcreteAnalyzer.set_shear_capacity sq conc_density f_c b d_v V_s
      ≤ 0.25 * f_c * b * d_v :=
  min_le_right _ _

/-- Witness for C6 at the identity square-root model, density 150 pcf,
f_c = 4 ksi, b = 12 in, d_v = 6 in, V_s = 0. -/
theorem shear_capacity_le_cap_witness :
    (0 : ℚ) < 12 ∧ (0 : ℚ) < 4 ∧ (0 : ℚ) < 6 ∧ (0 : ℚ) ≤ 0 ∧
    ConcreteAnalyzer.set_shear_capacity id 150 4 12 6 0 ≤ 0.25 * 4 * 12 * 6 :=
  ⟨by norm_num, by norm_num, by norm_num, le_refl 0,
   shear_capacity_le_cap id 150 4 12 6 0 (by norm_num) (by norm_num) (by norm_num) (le_refl 0)⟩

/-- Round-half-to-even of a rational to the nearest integer, the rounding
Python round uses. -/
def roundHalfEven (q : ℚ) : ℤ :=
  if q - ⌊q⌋ < 1/2 then ⌊q⌋
  else if 1/2 < q - ⌊q⌋ then ⌊q⌋ + 1
  else if ⌊q⌋ % 2 = 0 then ⌊q⌋ else ⌊q⌋ + 1

/-- Python round(x, 2): round half to even at two decimal places. -/
def pyRound2 (q : ℚ) : ℚ := (roundHalfEven (q * 100) : ℚ) / 100

/-- Rounding half to even moves a rational by at most one half. -/
theorem abs_roundHalfEven_sub_le (q : ℚ) : |(roundHalfEven q : ℚ) - q| ≤ 1/2 := by
  have hfl : (⌊q⌋ : ℚ) ≤ q := Int.floor_le q
  have hfu : q < ⌊q⌋ + 1 := Int.lt_floor_add_one q
  rw [roundHalfEven]
  split_ifs with h1 h2 h3 <;>
    (rw [abs_le]; push_cast; constructor <;> linarith)

/-- Rounding at two decimal places moves a rational by at most 1/200. -/
theorem abs_pyRound2_sub_le (q : ℚ) : |pyRound2 q - q| ≤ 1/200 := by
  have h := abs_roundHalfEven_sub_le (q * 100)
  have heq : pyRound2 q - q = ((roundHalfEven (q * 100) : ℚ) - q * 100) / 100 := by
    rw [pyRound2]; ring
  rw [heq, abs_div]
  rw [show |(100 : ℚ)| = 100 by norm_num]
  rw [div_le_iff₀ (by norm_num)]
  linarith

namespace ConcreteDesign

/-- ConcreteDesign.calc_excess_reinf (src/concrete_design.py lines
432-442): M_design = max(M_u, min_reinf_M), gamma_er = M_design / phi_Mn,
returned as round(gamma_er, 2). -/
def calc_excess_reinf (M_u min_reinf_M phi_Mn : ℚ) : Except PyError ℚ :=
  (pydiv (max M_u min_reinf_M) phi_Mn).map pyRound2

/-- ConcreteDesign.set_design_spacing (src/concrete_design.py lines
444-473): f_ct = M_s * 12 * (h/2) / I_g, beta_s = 1 + d_c/(0.7 (h - d_c)),
f_ss = min(f_s, 0.6 f_y); s_max = 700 gamma_e / (beta_s f_ss) - 2 d_c when
f_ct > 0.8 f_r, else None. -/
def set_design_spacing (gamma_e f_r f_s f_y h d_c I_g M_s : ℚ) : Option ℚ :=
  let f_ct := calc_stress M_s (h / 2) I_g
  let beta_s := 1 + d_c / (0.7 * (h - d_c))
  let f_ss := min f_s (0.6 * f_y)
  if f_ct > 0.8 * f_r then some (700 * gamma_e / (beta_s * f_ss) - 2 * d_c) else none

/-- The crack_control assignment in ConcreteDesign.set_checks
(src/concrete_design.py line 482): spacing <= s_max if s_max else True.
Python truthiness makes both None and 0.0 select the True branch. -/
def crack_control (spacing : ℚ) (s_max : Option ℚ) : Bool :=
  match s_max with
  | none => true
  | some v => if v = 0 then true else decide (spacing ≤ v)

end ConcreteDesign

/-- C4 counterexample: at M_u = 1, min_reinf_M = 0, phi_Mn = 3 the
returned excess-reinforcement value is 0.33, which is not the exact ratio
max(1, 0) / 3 = 1/3. -/
theorem calc_excess_reinf_claim_counterexample :
    ConcreteDesign.calc_excess_reinf 1 0 3 = .ok (33/100) ∧
    (33/100 : ℚ) ≠ max 1 0 / 3 := by
  constructor
  · have hd : pydiv (1 : ℚ) 3 = .ok (1/3) := by
      rw [pydiv, if_neg (by norm_num)]
    have hr : pyRound2 (1/3) = 33/100 := by
      have h100 : ((1 : ℚ)/3) * 100 = 100/3 := by norm_num
      rw [pyRound2, h100, show roundHalfEven (100/3) = 33 by
        rw [roundHalfEven, show ⌊(100 : ℚ)/3⌋ = 33 by norm_num [Int.floor_eq_iff]]
        norm_num]
      norm_num
    rw [ConcreteDesign.calc_excess_reinf,
      show max (1 : ℚ) 0 = 1 from max_eq_left (by norm_num), hd]
    simp only [Except.map]
    rw [hr]
  · rw [max_eq_left (by norm_num)]
    norm_num

/-- C4 (amended): for every M_u, min_reinf_M and nonzero phi_Mn the
design checker returns max(M_u, min_reinf_M) / phi_Mn rounded half to even
at two decimal places, a value within 1/200 of the exact ratio. -/
theorem calc_excess_reinf_rounded (M_u min_reinf_M phi_Mn : ℚ) (h : phi_Mn ≠ 0) :
    ConcreteDesign.calc_excess_reinf M_u min_reinf_M phi_Mn =
      .ok (pyRound2 (max M_u min_reinf_M / phi_Mn)) ∧
    |pyRound2 (max M_u min_reinf_M / phi_Mn) - max M_u min_reinf_M / phi_Mn| ≤ 1/200 := by
  constructor
  · rw [ConcreteDesign.calc_excess_reinf, pydiv, if_neg h]
    rfl
  · exact abs_pyRound2_sub_le _

/-- Witness for C4 (amended) at M_u = 1, min_reinf_M = 0, phi_Mn = 3. -/
theorem calc_excess_reinf_rounded_witness :
    ConcreteDesign.calc_excess_reinf 1 0 3 = .ok (pyRound2 (max 1 0 / 3)) ∧
    |pyRound2 (max 1 0 / 3) - max 1 0 / 3| ≤ 1/200 :=
  calc_excess_reinf_rounded 1 0 3 (by norm_num)

/-- C7 (amended): when the uncracked tensile stress f_ct is at most
0.8 f_r, s_max is None and crack_control is true for every spacing; when
f_ct exceeds 0.8 f_r, s_max is the spacing-limit formula and crack_control
is true iff spacing <= s_max or the computed s_max equals 0 (the guard
tests Python truthiness of s_max, so an exactly zero limit also passes
vacuously). -/
theorem design_spacing_crack_control (gamma_e f_r f_s f_y h d_c I_g M_s spacing : ℚ) :
    (calc_stress M_s (h / 2) I_g ≤ 0.8 * f_r →
      ConcreteDesign.set_design_spacing gamma_e f_r f_s f_y h d_c I_g M_s = none ∧
      ConcreteDesign.crack_control spacing
        (ConcreteDesign.set_design_spacing gamma_e f_r f_s f_y h d_c I_g M_s) = true) ∧
    (0.8 * f_r < calc_stress M_s (h / 2) I_g →
      ConcreteDesign.set_design_spacing gamma_e f_r f_s f_y h d_c I_g M_s =
        some (700 * gamma_e / ((1 + d_c / (0.7 * (h - d_c))) * min f_s (0.6 * f_y)) - 2 * d_c) ∧
      (ConcreteDesign.crack_control spacing
          (ConcreteDesign.set_design_spacing gamma_e f_r f_s f_y h d_c I_g M_s) = true ↔
        spacing ≤ 700 * gamma_e / ((1 + d_c / (0.7 * (h - d_c))) * min f_s (0.6 * f_y)) - 2 * d_c ∨
        700 * gamma_e / ((1 + d_c / (0.7 * (h - d_c))) * min f_s (0.6 * f_y)) - 2 * d_c = 0)) := by
  constructor
  · intro hle
    have hcond : ConcreteDesign.set_design_spacing gamma_e f_r f_s f_y h d_c I_g M_s = none := by
      simp only [ConcreteDesign.set_design_spacing]
      rw [if_neg (not_lt.mpr hle)]
    exact ⟨hcond, by rw [hcond]; rfl⟩
  · intro hgt
    have hcond : ConcreteDesign.set_design_spacing gamma_e f_r f_s f_y h d_c I_g M_s =
        some (700 * gamma_e / ((1 + d_c / (0.7 * (h - d_c))) * min f_s (0.6 * f_y)) - 2 * d_c) := by
      simp only [ConcreteDesign.set_design_spacing]
      rw [if_pos hgt]
    refine ⟨hcond, ?_⟩
    rw [hcond]
    by_cases hz : 700 * gamma_e / ((1 + d_c / (0.7 * (h - d_c))) * min f_s (0.6 * f_y)) - 2 * d_c = 0
    · simp [ConcreteDesign.crack_control, hz]
    · simp [ConcreteDesign.crack_control, hz]

/-- Witness for C7 (amended): an input whose f_ct stays below 0.8 f_r
yields a vacuous pass, and an input whose f_ct exceeds 0.8 f_r yields the
formula-driven spacing limit with the stated equivalence. -/
theorem design_spacing_crack_control_witness :
    (ConcreteDesign.set_design_spacing (3/4) 10 30 60 8 (7/4) 512 10 = none ∧
     ConcreteDesign.crack_control 6
       (ConcreteDesign.set_design_spacing (3/4) 10 30 60 8 (7/4) 512 10) = true) ∧
    (ConcreteDesign.set_design_spacing (3/4) (12/25) 30 60 8 (7/4) 512 10 =
       some (700 * (3/4) / ((1 + (7/4) / (0.7 * (8 - 7/4))) * min 30 (0.6 * 60)) - 2 * (7/4)) ∧
     (ConcreteDesign.crack_control 6
         (ConcreteDesign.set_design_spacing (3/4) (12/25) 30 60 8 (7/4) 512 10) = true ↔
       (6 : ℚ) ≤ 700 * (3/4) / ((1 + (7/4) / (0.7 * (8 - 7/4))) * min 30 (0.6 * 60)) - 2 * (7/4) ∨
       (700 : ℚ) * (3/4) / ((1 + (7/4) / (0.7 * (8 - 7/4))) * min 30 (0.6 * 60)) - 2 * (7/4) = 0)) :=
  ⟨(design_spacing_crack_control (3/4) 10 30 60 8 (7/4) 512 10 6).1
      (by norm_num [calc_stress]),
   (design_spacing_crack_control (3/4) (12/25) 30 60 8 (7/4) 512 10 6).2
      (by norm_num [calc_stress])⟩

/-- C7 counterexample for the claim as stated: an input whose f_ct exceeds
0.8 f_r and whose computed s_max is exactly 0, where crack_control is true
although the actual spacing 6 is not at most s_max = 0, refuting
"crack_control is true iff spacing <= s_max" in the f_ct > 0.8 f_r case. -/
theorem crack_control_zero_smax_counterexample :
    0.8 * (1/10 : ℚ) < calc_stress 1 ((17/7) / 2) 1 ∧
    ConcreteDesign.set_design_spacing (3/4) (1/10) (525/4) 1000 (17/7) 1 1 1 = some 0 ∧
    ConcreteDesign.crack_control 6
      (ConcreteDesign.set_design_spacing (3/4) (1/10) (525/4) 1000 (17/7) 1 1 1) = true ∧
    ¬((6 : ℚ) ≤ 0) := by
  have hs : ConcreteDesign.set_design_spacing (3/4) (1/10) (525/4) 1000 (17/7) 1 1 1 = some 0 := by
    norm_num [ConcreteDesign.set_design_spacing, calc_stress, min_def]
  refine ⟨by norm_num [calc_stress], hs, ?_, by norm_num⟩
  rw [hs]
  simp [ConcreteDesign.crack_control]

/-- C10: when set_design_spacing computes s_max = 0 the crack_control
check is true for every spacing (0.0 is falsy like None), while for a
negative computed s_max the comparison is performed and fails for every
positive spacing. -/
theorem crack_control_truthiness (gamma_e f_r f_s f_y h d_c I_g M_s spacing : ℚ) :
    (ConcreteDesign.set_design_spacing gamma_e f_r f_s f_y h d_c I_g M_s = some 0 →
      ConcreteDesign.crack_control spacing
        (ConcreteDesign.set_design_spacing gamma_e f_r f_s f_y h d_c I_g M_s) = true) ∧
    (∀ v, ConcreteDesign.set_design_spacing gamma_e f_r f_s f_y h d_c I_g M_s = some v →
      v < 0 → 0 < spacing →
      ConcreteDesign.crack_control spacing
        (ConcreteDesign.set_design_spacing gamma_e f_r f_s f_y h d_c I_g M_s) = false) := by
  constructor
  · intro hz
    rw [hz]
    simp [ConcreteDesign.crack_control]
  · intro v hv hneg hpos
    rw [hv]
    simp only [ConcreteDesign.crack_control]
    rw [if_neg hneg.ne]
    simp only [decide_eq_false_iff_not, not_le]
    linarith

/-- Witness for C10: an input computing s_max = 0 passes crack control at
spacing 6, and an input computing s_max = -1 fails it at spacing 6. -/
theorem crack_control_truthiness_witness :
    ConcreteDesign.crack_control 6
      (ConcreteDesign.set_design_spacing (3/4) (1/10) (525/4) 1000 (17/7) 1 1 1) = true ∧
    ConcreteDesign.crack_control 6
      (ConcreteDesign.set_design_spacing (3/4) (1/10) (525/2) 1000 (17/7) 1 1 1) = false :=
  ⟨(crack_control_truthiness (3/4) (1/10) (525/4) 1000 (17/7) 1 1 1 6).1
      (by norm_num [ConcreteDesign.set_design_spacing, calc_stress, min_def]),
   (crack_control_truthiness (3/4) (1/10) (525/2) 1000 (17/7) 1 1 1 6).2 (-1)
      (by norm_num [ConcreteDesign.set_design_spacing, calc_stress, min_def])
      (by norm_num) (by norm_num)⟩
